import Mathlib

/-!
Shallow embedding of the drift-bottle plugin (`src/main.py`) for verifying
the specification claims.

Python strings are modelled as Lean `String` (a sequence of code points,
matching CPython's `str`); the code-point-based operations `s[n:]`,
`s.startswith(p)` and `s.strip()` are embedded below.  The mutable plugin
state `self.user_data` is threaded explicitly; every call of
`_save_user_data` is recorded as a persist event so that frame conditions
about persistence are statable.  The JSON document on disk is modelled by
`StoreJson` (fields may be absent) and the three possible outcomes of
reading the file by `UserDataFile`.
-/

set_option autoImplicit false

namespace DriftBottle

/-- Per-user daily quota record, the values of the `users` dict:
`{"pick": int, "throw": int}` (main.py line 131). -/
structure QuotaRecord where
  pick : Nat
  throw : Nat
deriving DecidableEq, Repr

/-- The in-memory store `self.user_data` (main.py lines 74-79):
`last_reset_date` string plus the `users` mapping, modelled as an
insertion-ordered association list like a Python dict. -/
structure QuotaStore where
  last_reset_date : String
  users : List (String × QuotaRecord)
deriving DecidableEq, Repr

/-- Dict lookup `users[qq]` / `qq in users`. -/
def lookupUser : List (String × QuotaRecord) → String → Option QuotaRecord
  | [], _ => none
  | (k, v) :: rest, qq => if k = qq then some v else lookupUser rest qq

/-- Dict assignment `users[qq] = r`: overwrite in place when the key exists,
append otherwise (Python dicts keep insertion order). -/
def setUser : List (String × QuotaRecord) → String → QuotaRecord → List (String × QuotaRecord)
  | [], qq, r => [(qq, r)]
  | (k, v) :: rest, qq, r =>
      if k = qq then (qq, r) :: rest else (k, v) :: setUser rest qq r

/-! ## Python string operations -/

/-- Python code-point slicing `s[n:]`. -/
def pyDrop (s : String) (n : Nat) : String := ⟨s.data.drop n⟩

/-- Bool-valued code-point prefix test, the recursion behind
Python `s.startswith(p)`. -/
def charsIsPre : List Char → List Char → Bool
  | [], _ => true
  | _ :: _, [] => false
  | a :: as, b :: bs => a == b && charsIsPre as bs

/-- Python `s.startswith(p)`. -/
def pyStartswith (s p : String) : Bool := charsIsPre p.data s.data

/-- Python `s.startswith((p, q))`. -/
def pyStartswith2 (s p q : String) : Bool := pyStartswith s p || pyStartswith s q

/-- Python `s.strip()`: whitespace removed from both ends. -/
def pyStrip (s : String) : String :=
  ⟨((s.data.dropWhile Char.isWhitespace).reverse.dropWhile Char.isWhitespace).reverse⟩

/-- Python `s.split(sep)` (all occurrences, like `str.split` with an
explicit separator). -/
def pySplit (s sep : String) : List String := s.splitOn sep

/-- Python `s.split(":", 1)[1]`: everything after the first colon.  In the
source it is only evaluated on lines that start with `"图片URL:"`, so a
colon is always present. -/
def splitFirstColon (s : String) : String :=
  match s.splitOn ":" with
  | [] => ""
  | _ :: rest => String.intercalate ":" rest

/-! ## Configuration (`_init_config`, `_init_aiohttp_session`) -/

/-- The plugin's configuration dictionary: each key may be absent
(`self.config.get(key, default)` supplies the default). -/
structure PluginConfig where
  api_key : Option String
  daily_pick_limit : Option Int
  daily_throw_limit : Option Int
  api_timeout : Option Int
deriving DecidableEq, Repr

/-- The `total` timeout handed to `aiohttp.ClientTimeout` when the session is
created (main.py line 51): the raw configured value with default 8. -/
def init_aiohttp_session_timeout (cfg : PluginConfig) : Int :=
  cfg.api_timeout.getD 8

/-- The attribute values computed by `_init_config` (main.py lines 64-67). -/
structure InitConfigResult where
  api_key : String
  daily_pick_limit : Int
  daily_throw_limit : Int
  api_timeout : Int
deriving DecidableEq, Repr

/-- `_init_config` (main.py lines 61-67). -/
def init_config (cfg : PluginConfig) : InitConfigResult :=
  { api_key := pyStrip (cfg.api_key.getD "")
  , daily_pick_limit := max 1 (cfg.daily_pick_limit.getD 10)
  , daily_throw_limit := max 1 (cfg.daily_throw_limit.getD 5)
  , api_timeout := max 3 (cfg.api_timeout.getD 8) }

/-! ## Loading persisted data (`_load_user_data`) -/

/-- A parsed `user_data.json` object; either top-level field may be absent
(the code only ever tests for `last_reset_date`). -/
structure StoreJson where
  last_reset_date : Option String
  users : Option (List (String × QuotaRecord))
deriving DecidableEq, Repr

/-- The three outcomes of reading `user_data.json`: file absent, content
that makes `json.load` raise, or a parsed object. -/
inductive UserDataFile where
  | missing
  | malformed
  | parsed (data : StoreJson)
deriving DecidableEq, Repr

/-- `_get_default_user_data` (main.py lines 74-79). -/
def get_default_user_data (today : String) : StoreJson :=
  { last_reset_date := some today, users := some [] }

/-- `_load_user_data` (main.py lines 82-101).  Returns the store the plugin
keeps in memory together with the number of times the default document was
written over the file. -/
def load_user_data (file : UserDataFile) (today : String) : StoreJson × Nat :=
  match file with
  | .missing => (get_default_user_data today, 1)
  | .malformed => (get_default_user_data today, 1)
  | .parsed d =>
      if d.last_reset_date.isNone then (get_default_user_data today, 1)
      else (d, 0)

/-! ## Daily reset and per-user access -/

/-- Result of `_check_reset_data`: the store afterwards and whether
`_save_user_data` ran. -/
structure ResetResult where
  store : QuotaStore
  saved : Bool
deriving DecidableEq, Repr

/-- `_check_reset_data` (main.py lines 118-125): on a date mismatch the date
is updated, the whole `users` dict replaced by `{}`, and the store saved. -/
def check_reset_data (s : QuotaStore) (today : String) : ResetResult :=
  if s.last_reset_date ≠ today then
    { store := { last_reset_date := today, users := [] }, saved := true }
  else
    { store := s, saved := false }

/-- Result of `_get_user_count`: the record returned, the store afterwards,
and which of the two possible `_save_user_data` calls ran (the one inside
the reset check and the one after inserting a fresh record). -/
structure UserCountResult where
  record : QuotaRecord
  store : QuotaStore
  resetSaved : Bool
  insertSaved : Bool
deriving DecidableEq, Repr

/-- `_get_user_count` (main.py lines 127-133): reset check first, then the
user's record, a zeroed record being inserted and persisted when absent. -/
def get_user_count (s : QuotaStore) (today qq : String) : UserCountResult :=
  let r := check_reset_data s today
  match lookupUser r.store.users qq with
  | some rec0 =>
      { record := rec0, store := r.store
      , resetSaved := r.saved, insertSaved := false }
  | none =>
      let rec0 : QuotaRecord := { pick := 0, throw := 0 }
      { record := rec0
      , store := { r.store with users := setUser r.store.users qq rec0 }
      , resetSaved := r.saved, insertSaved := true }

/-! ## Bottle API response handling (`_call_bottle_api`) -/

/-- The response-parsing step of `_call_bottle_api` (main.py lines 154-157):
the body is stripped; a body starting with the sentinel `"错误："` is turned
into `"API错误：" ++ result[4:]`, anything else is returned as-is. -/
def call_bottle_api_parse (body : String) : String :=
  let result := pyStrip body
  if pyStartswith result "错误：" then "API错误：" ++ pyDrop result 4
  else result

/-- The failure test both command handlers apply to the client's string
(main.py lines 197 and 249):
`api_result.startswith(("API错误", "请求", "调用"))`. -/
def isApiFailure (s : String) : Bool :=
  pyStartswith s "API错误" || pyStartswith s "请求" || pyStartswith s "调用"

/-! ## Command handlers -/

/-- One component of a reply message chain. -/
inductive MsgComp where
  | plain (text : String)
  | image (url : String)
deriving DecidableEq, Repr

/-- A handler reply: `event.plain_result` or `event.chain_result`. -/
inductive Reply where
  | plainResult (text : String)
  | chainResult (comps : List MsgComp)
deriving DecidableEq, Repr

/-- The image-URL scan over the lines of a successful pick payload
(main.py lines 211-216): the first line starting with `"图片URL:"` decides;
its value is attached only when it is not `"无"` and is an http(s) URL. -/
def findPickImage : List String → Option String
  | [] => none
  | line :: rest =>
      if pyStartswith line "图片URL:" then
        let img := pyStrip (splitFirstColon line)
        if img ≠ "无" && pyStartswith2 img "http://" "https://" then some img
        else none
      else findPickImage rest

/-- Everything observable about one handler invocation: the reply, the store
afterwards, how many bottle-API calls were made and how many
`_save_user_data` calls ran. -/
structure HandlerOutcome where
  reply : Reply
  store : QuotaStore
  apiCalls : Nat
  saves : Nat
deriving DecidableEq, Repr

/-- The reply chain of a successful pick (main.py lines 207-216). -/
def pickReplyChain (api_result : String) (remaining : Nat) : List MsgComp :=
  let base := [MsgComp.plain
    ("✅ 捡到漂流瓶啦！\n" ++ api_result ++ "\n\n📊 今日剩余：" ++ toString remaining ++ "次")]
  match findPickImage (pySplit api_result "\n") with
  | some url => base ++ [MsgComp.image url]
  | none => base

/-- `handle_pick` (main.py lines 182-218), with the string the bottle client
would return passed in as `api_result`.  `apiCalls` counts whether
`_call_bottle_api` was reached. -/
def handle_pick (s : QuotaStore) (today qq : String) (daily_pick_limit : Nat)
    (api_result : String) : HandlerOutcome :=
  let u := get_user_count s today qq
  let saves0 := (if u.resetSaved then 1 else 0) + (if u.insertSaved then 1 else 0)
  if daily_pick_limit ≤ u.record.pick then
    { reply := .plainResult
        ("今日捡瓶次数已用尽！\n每日上限：" ++ toString daily_pick_limit ++ "次\n明日0点自动重置")
    , store := u.store, apiCalls := 0, saves := saves0 }
  else if isApiFailure api_result then
    { reply := .plainResult ("❌ 捡瓶失败：" ++ api_result)
    , store := u.store, apiCalls := 1, saves := saves0 }
  else
    let newRec : QuotaRecord := { u.record with pick := u.record.pick + 1 }
    let s2 : QuotaStore := { u.store with users := setUser u.store.users qq newRec }
    { reply := .chainResult (pickReplyChain api_result (daily_pick_limit - newRec.pick))
    , store := s2, apiCalls := 1, saves := saves0 + 1 }

/-- `handle_throw` (main.py lines 226-268).  `content` is the command
argument (default `""`), `image_url` the first http(s) image URL of the
message chain or `none`, and `api_result` the string the bottle client
would return. -/
def handle_throw (s : QuotaStore) (today qq : String) (daily_throw_limit : Nat)
    (content : String) (image_url : Option String) (api_result : String) : HandlerOutcome :=
  let u := get_user_count s today qq
  let saves0 := (if u.resetSaved then 1 else 0) + (if u.insertSaved then 1 else 0)
  if daily_throw_limit ≤ u.record.throw then
    { reply := .plainResult
        ("今日投瓶次数已用尽！\n每日上限：" ++ toString daily_throw_limit ++ "次\n明日0点自动重置")
    , store := u.store, apiCalls := 0, saves := saves0 }
  else if content == "" && image_url.isNone then
    { reply := .plainResult
        "❌ 投放失败：需携带文字内容或图片！\n示例：\n投漂流瓶 今天天气真好～\n（发送时可附带图片）"
    , store := u.store, apiCalls := 0, saves := saves0 }
  else if isApiFailure api_result then
    { reply := .plainResult ("❌ 投瓶失败：" ++ api_result)
    , store := u.store, apiCalls := 1, saves := saves0 }
  else
    let newRec : QuotaRecord := { u.record with throw := u.record.throw + 1 }
    let s2 : QuotaStore := { u.store with users := setUser u.store.users qq newRec }
    let base := [MsgComp.plain
      ("✅ 漂流瓶投放成功！\n" ++ api_result ++ "\n\n📊 今日剩余："
        ++ toString (daily_throw_limit - newRec.throw) ++ "次")]
    let comps := match image_url with
      | some url => base ++ [MsgComp.plain "\n你投放的图片：", MsgComp.image url]
      | none => base
    { reply := .chainResult comps, store := s2, apiCalls := 1, saves := saves0 + 1 }

/-- `handle_my_stats` (main.py lines 275-287): reads the user's record via
`_get_user_count`; returns the record shown and the store afterwards. -/
def handle_my_stats (s : QuotaStore) (today qq : String) : QuotaRecord × QuotaStore :=
  let u := get_user_count s today qq
  (u.record, u.store)

/-! ## Admin commands (no reset check in the source) -/

/-- `admin_query` (main.py lines 300-311): reads
`self.user_data["users"].get(target_qq.strip(), zeros)` directly, without
`_check_reset_data`, and mutates nothing. -/
def admin_query (s : QuotaStore) (target_qq : String) : QuotaRecord × QuotaStore :=
  (match lookupUser s.users (pyStrip target_qq) with
   | some r => r
   | none => { pick := 0, throw := 0 }, s)

/-- `admin_reset` (main.py lines 316-329): zeroes an existing user's record
and persists; does nothing for an unknown user; never runs the reset
check.  The Bool records whether `_save_user_data` ran. -/
def admin_reset (s : QuotaStore) (target_qq : String) : QuotaStore × Bool :=
  let t := pyStrip target_qq
  match lookupUser s.users t with
  | some _ => ({ s with users := setUser s.users t { pick := 0, throw := 0 } }, true)
  | none => (s, false)

/-- `admin_global` (main.py lines 331-345): user count and totals, read
directly from the store without the reset check. -/
def admin_global (s : QuotaStore) : Nat × Nat × Nat :=
  (s.users.length,
   (s.users.map (fun u => u.2.pick)).sum,
   (s.users.map (fun u => u.2.throw)).sum)

/-! ## Helper lemmas -/

theorem charsIsPre_append (p : List Char) : ∀ (l t : List Char),
    charsIsPre p l = true → charsIsPre p (l ++ t) = true := by
  induction p with
  | nil => intro l t _; rfl
  | cons a as ih =>
    intro l t h
    cases l with
    | nil => exact absurd h (by simp [charsIsPre])
    | cons b bs =>
      simp only [charsIsPre, Bool.and_eq_true, beq_iff_eq] at h
      simp only [List.cons_append, charsIsPre, Bool.and_eq_true, beq_iff_eq]
      exact ⟨h.1, ih bs t h.2⟩

theorem isApiFailure_of_api_error (x : String) :
    isApiFailure ("API错误：" ++ x) = true := by
  have h : charsIsPre ("API错误").data (("API错误：").data ++ x.data) = true :=
    charsIsPre_append _ _ _ (by decide)
  unfold isApiFailure pyStartswith
  rw [String.data_append, h]
  simp

theorem check_reset_eq_self (s : QuotaStore) (d : String)
    (h : s.last_reset_date = d) : check_reset_data s d = ⟨s, false⟩ := by
  simp [check_reset_data, h]

theorem check_reset_date_eq (s : QuotaStore) (d : String) :
    (check_reset_data s d).store.last_reset_date = d := by
  by_cases h : s.last_reset_date = d <;> simp [check_reset_data, h]

theorem get_user_count_found (s : QuotaStore) (today qq : String) (r : QuotaRecord)
    (hdate : s.last_reset_date = today) (hu : lookupUser s.users qq = some r) :
    get_user_count s today qq = ⟨r, s, false, false⟩ := by
  simp [get_user_count, check_reset_eq_self s today hdate, hu]

theorem lookupUser_setUser (qq : String) (r : QuotaRecord) :
    ∀ l : List (String × QuotaRecord), lookupUser (setUser l qq r) qq = some r := by
  intro l
  induction l with
  | nil => simp [setUser, lookupUser]
  | cons p rest ih =>
    obtain ⟨k, v⟩ := p
    by_cases h : k = qq <;> simp [setUser, lookupUser, h, ih]

/-! ## Claim theorems -/

/-- Claim C1, counterexample: with a stored date of `"2020-01-01"` and a
current date of `"2026-10-12"`, `admin_query` reads the store without
running the daily-reset check, so immediately after this read the stored
`last_reset_date` still differs from the current date, contradicting the
claimed invariant for the admin query operation. -/
theorem C1_counterexample :
    (admin_query ⟨"2020-01-01", [("u1", ⟨3, 1⟩)]⟩ "u1").2 =
      (⟨"2020-01-01", [("u1", ⟨3, 1⟩)]⟩ : QuotaStore) ∧
    (admin_query ⟨"2020-01-01", [("u1", ⟨3, 1⟩)]⟩ "u1").2.last_reset_date ≠ "2026-10-12" := by
  constructor
  · rfl
  · decide

/-- Claim C1, amended: the daily-reset check runs at the start of user quota
access (`_get_user_count`, used by the pick, throw and personal-stats
handlers), so after such an access the stored `last_reset_date` equals the
current date and, on a mismatch, the whole `users` mapping was cleared; the
admin query/reset/global-stats operations do not run the reset check:
`admin_query` leaves the store untouched and `admin_reset` preserves the
stored `last_reset_date`. -/
theorem C1_amended (s : QuotaStore) (today qq tq : String) :
    (get_user_count s today qq).store.last_reset_date = today ∧
    (s.last_reset_date ≠ today → (check_reset_data s today).store.users = []) ∧
    (admin_query s tq).2 = s ∧
    ((admin_reset s tq).1).last_reset_date = s.last_reset_date := by
  refine ⟨?_, ?_, rfl, ?_⟩
  · unfold get_user_count
    cases hl : lookupUser (check_reset_data s today).store.users qq <;>
      simp [hl, check_reset_date_eq]
  · intro h
    simp [check_reset_data, h]
  · unfold admin_reset
    cases hl : lookupUser s.users (pyStrip tq) <;> simp [hl]

/-- Claim C1, witness for the amended statement at concrete inputs. -/
theorem C1_witness :
    (get_user_count ⟨"2020-01-01", [("u1", ⟨3, 1⟩)]⟩ "2026-10-12" "u1").store.last_reset_date
      = "2026-10-12" ∧
    (check_reset_data ⟨"2020-01-01", [("u1", ⟨3, 1⟩)]⟩ "2026-10-12").store.users = [] ∧
    (admin_query ⟨"2020-01-01", [("u1", ⟨3, 1⟩)]⟩ "u1").2 =
      (⟨"2020-01-01", [("u1", ⟨3, 1⟩)]⟩ : QuotaStore) ∧
    ((admin_reset ⟨"2020-01-01", [("u1", ⟨3, 1⟩)]⟩ "u1").1).last_reset_date = "2020-01-01" := by
  obtain ⟨h1, h2, h3, h4⟩ :=
    C1_amended ⟨"2020-01-01", [("u1", ⟨3, 1⟩)]⟩ "2026-10-12" "u1" "u1"
  exact ⟨h1, h2 (by decide), h3, h4⟩

/-- Claim C2, counterexample: the sentinel `"错误："` is three characters
long but the code slices `result[4:]`, so for the trimmed body
`"错误：abc"` the surfaced message is `"bc"`, not the remainder `"abc"`
after the sentinel. -/
theorem C2_counterexample :
    pyStartswith (pyStrip "错误：abc") "错误：" = true ∧
    call_bottle_api_parse "错误：abc" = "API错误：bc" ∧
    call_bottle_api_parse "错误：abc" ≠
      "API错误：" ++ pyDrop (pyStrip "错误：abc") (String.length "错误：") := by
  refine ⟨by decide, by decide, by decide⟩

/-- Claim C2, amended: after trimming, a body starting with the sentinel
`"错误："` is surfaced as `"API错误："` followed by the trimmed body with
its first four characters (the three-character sentinel plus the next
character) removed; any other trimmed body is returned unchanged as the
success payload. -/
theorem C2_amended (body : String) :
    (pyStartswith (pyStrip body) "错误：" = true →
      call_bottle_api_parse body = "API错误：" ++ pyDrop (pyStrip body) 4) ∧
    (pyStartswith (pyStrip body) "错误：" = false →
      call_bottle_api_parse body = pyStrip body) := by
  constructor <;> intro h <;> simp [call_bottle_api_parse, h]

/-- Claim C2, witness for the amended statement at concrete inputs. -/
theorem C2_witness :
    call_bottle_api_parse "错误：abc" = "API错误：" ++ pyDrop (pyStrip "错误：abc") 4 ∧
    call_bottle_api_parse " 你好 " = pyStrip " 你好 " :=
  ⟨(C2_amended "错误：abc").1 (by decide), (C2_amended " 你好 ").2 (by decide)⟩

/-- Claim C3, counterexample: with `api_timeout` configured as `1`, the
timeout handed to the aiohttp session — the one actually applied to the
outbound request — is `1`, below the claimed floor of `3`: the
`max 3 …` floor is applied only to the separate `api_timeout` attribute. -/
theorem C3_counterexample :
    init_aiohttp_session_timeout ⟨none, none, none, some 1⟩ = 1 ∧
    init_aiohttp_session_timeout ⟨none, none, none, some 1⟩ < 3 := by
  refine ⟨by decide, by decide⟩

/-- Claim C3, amended: the timeout applied to the outbound HTTP request is
the raw configured value (8 when absent) with no floor; the floored value
`max 3 (configured value)` is stored in the `api_timeout` attribute, which
is used only in the timeout error message, and the two agree exactly when
the configured value is at least 3. -/
theorem C3_amended (cfg : PluginConfig) :
    init_aiohttp_session_timeout cfg = cfg.api_timeout.getD 8 ∧
    (init_config cfg).api_timeout = max 3 (cfg.api_timeout.getD 8) ∧
    (3 ≤ cfg.api_timeout.getD 8 →
      init_aiohttp_session_timeout cfg = (init_config cfg).api_timeout) := by
  refine ⟨rfl, rfl, ?_⟩
  intro h
  simp [init_aiohttp_session_timeout, init_config]
  omega

/-- Claim C3, witness for the amended statement at a concrete input. -/
theorem C3_witness :
    init_aiohttp_session_timeout ⟨none, none, none, some 5⟩ =
      (init_config ⟨none, none, none, some 5⟩).api_timeout :=
  (C3_amended ⟨none, none, none, some 5⟩).2.2 (by decide)

/-- Claim C4, counterexample: a parsed file `{"last_reset_date":
"2020-01-01"}` with the `users` field absent is returned as-is and not
overwritten — `_load_user_data` only tests for a missing
`last_reset_date`, so a missing `users` field does not degrade to the
default store. -/
theorem C4_counterexample :
    load_user_data (.parsed ⟨some "2020-01-01", none⟩) "2026-10-12" =
      (⟨some "2020-01-01", none⟩, 0) ∧
    (⟨some "2020-01-01", none⟩ : StoreJson) ≠ get_default_user_data "2026-10-12" := by
  refine ⟨rfl, by decide⟩

/-- Claim C4, amended: a missing file, malformed content, or a parsed
object missing `last_reset_date` each yield the freshly-initialized
default store and exactly one overwrite of the file; a parsed object that
has `last_reset_date` — even one missing the `users` field — is returned
unchanged with no overwrite. -/
theorem C4_amended (d : StoreJson) (today : String) :
    load_user_data .missing today = (get_default_user_data today, 1) ∧
    load_user_data .malformed today = (get_default_user_data today, 1) ∧
    (d.last_reset_date = none →
      load_user_data (.parsed d) today = (get_default_user_data today, 1)) ∧
    (∀ x, d.last_reset_date = some x →
      load_user_data (.parsed d) today = (d, 0)) := by
  refine ⟨rfl, rfl, ?_, ?_⟩
  · intro h
    simp [load_user_data, h]
  · intro x h
    simp [load_user_data, h]

/-- Claim C4, witness for the amended statement at concrete inputs. -/
theorem C4_witness :
    load_user_data (.parsed ⟨none, some []⟩) "2026-10-12" =
      (get_default_user_data "2026-10-12", 1) ∧
    load_user_data (.parsed ⟨some "2020-01-01", none⟩) "2026-10-12" =
      (⟨some "2020-01-01", none⟩, 0) :=
  ⟨(C4_amended ⟨none, some []⟩ "2026-10-12").2.2.1 rfl,
   (C4_amended ⟨some "2020-01-01", none⟩ "2026-10-12").2.2.2 "2020-01-01" rfl⟩

/-- Claim C5: after the daily-reset check, a user id absent from the
mapping gets the record `{pick: 0, throw: 0}` returned and inserted, with
the dedicated persist for that insertion running exactly once
(`insertSaved = true` records the single `_save_user_data` call at
main.py line 132); a user id already present gets the existing record
back, the store untouched and no insertion persist. -/
theorem C5_getOrInit (s : QuotaStore) (today qq : String) :
    (lookupUser (check_reset_data s today).store.users qq = none →
      (get_user_count s today qq).record = ⟨0, 0⟩ ∧
      lookupUser (get_user_count s today qq).store.users qq = some ⟨0, 0⟩ ∧
      (get_user_count s today qq).insertSaved = true) ∧
    (∀ r, lookupUser (check_reset_data s today).store.users qq = some r →
      (get_user_count s today qq).record = r ∧
      (get_user_count s today qq).store = (check_reset_data s today).store ∧
      (get_user_count s today qq).insertSaved = false) := by
  constructor
  · intro h
    simp [get_user_count, h, lookupUser_setUser]
  · intro r h
    simp [get_user_count, h]

/-- Claim C5, witness at concrete inputs: a fresh user on an empty store
and an already-present user. -/
theorem C5_witness :
    (get_user_count ⟨"2026-10-12", []⟩ "2026-10-12" "u1").record = ⟨0, 0⟩ ∧
    lookupUser (get_user_count ⟨"2026-10-12", []⟩ "2026-10-12" "u1").store.users "u1"
      = some ⟨0, 0⟩ ∧
    (get_user_count ⟨"2026-10-12", []⟩ "2026-10-12" "u1").insertSaved = true ∧
    (get_user_count ⟨"2026-10-12", [("u1", ⟨2, 1⟩)]⟩ "2026-10-12" "u1").record = ⟨2, 1⟩ ∧
    (get_user_count ⟨"2026-10-12", [("u1", ⟨2, 1⟩)]⟩ "2026-10-12" "u1").insertSaved = false := by
  have h1 := (C5_getOrInit ⟨"2026-10-12", []⟩ "2026-10-12" "u1").1 (by decide)
  have h2 := (C5_getOrInit ⟨"2026-10-12", [("u1", ⟨2, 1⟩)]⟩ "2026-10-12" "u1").2 ⟨2, 1⟩ (by decide)
  exact ⟨h1.1, h1.2.1, h1.2.2, h2.1, h2.2.2⟩

/-- Claim C6: a user whose pick count has reached the daily pick cap gets
the limit-reached reply, no bottle-API call is made, no persist runs, and
the store — the user's pick count included — is unchanged. -/
theorem C6_pick_at_cap (s : QuotaStore) (today qq : String) (cap : Nat)
    (r : QuotaRecord) (api : String)
    (hdate : s.last_reset_date = today)
    (hu : lookupUser s.users qq = some r)
    (hcap : cap ≤ r.pick) :
    handle_pick s today qq cap api =
      ⟨.plainResult
        ("今日捡瓶次数已用尽！\n每日上限：" ++ toString cap ++ "次\n明日0点自动重置"),
       s, 0, 0⟩ := by
  simp [handle_pick, get_user_count_found s today qq r hdate hu, hcap]

/-- Claim C6, witness: cap 10, a user with pick = 10. -/
theorem C6_witness :
    handle_pick ⟨"2026-10-12", [("u1", ⟨10, 0⟩)]⟩ "2026-10-12" "u1" 10 "x" =
      ⟨.plainResult
        ("今日捡瓶次数已用尽！\n每日上限：" ++ toString 10 ++ "次\n明日0点自动重置"),
       ⟨"2026-10-12", [("u1", ⟨10, 0⟩)]⟩, 0, 0⟩ :=
  C6_pick_at_cap _ _ _ _ ⟨10, 0⟩ _ rfl (by decide) (by decide)

/-- Claim C7: when the remote body (after trimming) starts with the
sentinel `"错误："`, the client's string starts with `"API错误"`, so both
the pick and the throw handler reply with the formatted API-error message,
increment nothing and persist nothing. -/
theorem C7_sentinel_no_increment (s : QuotaStore) (today qq : String)
    (cP cT : Nat) (r : QuotaRecord) (body content : String) (img : Option String)
    (hdate : s.last_reset_date = today)
    (hu : lookupUser s.users qq = some r)
    (hp : r.pick < cP) (ht : r.throw < cT)
    (hc : (content == "" && img.isNone) = false)
    (hs : pyStartswith (pyStrip body) "错误：" = true) :
    handle_pick s today qq cP (call_bottle_api_parse body) =
      ⟨.plainResult ("❌ 捡瓶失败：" ++ call_bottle_api_parse body), s, 1, 0⟩ ∧
    handle_throw s today qq cT content img (call_bottle_api_parse body) =
      ⟨.plainResult ("❌ 投瓶失败：" ++ call_bottle_api_parse body), s, 1, 0⟩ := by
  have hparse : call_bottle_api_parse body = "API错误：" ++ pyDrop (pyStrip body) 4 := by
    simp [call_bottle_api_parse, hs]
  have hfail : isApiFailure (call_bottle_api_parse body) = true := by
    rw [hparse]
    exact isApiFailure_of_api_error _
  have hu' := get_user_count_found s today qq r hdate hu
  constructor <;>
    simp [handle_pick, handle_throw, hu', not_le.mpr hp, not_le.mpr ht, hc, hfail]

/-- Claim C7, witness: a user at 0/0, remote body `"错误：x"`, throw
content `"hi"`. -/
theorem C7_witness :
    handle_pick ⟨"2026-10-12", [("u1", ⟨0, 0⟩)]⟩ "2026-10-12" "u1" 10
        (call_bottle_api_parse "错误：x") =
      ⟨.plainResult ("❌ 捡瓶失败：" ++ call_bottle_api_parse "错误：x"),
       ⟨"2026-10-12", [("u1", ⟨0, 0⟩)]⟩, 1, 0⟩ ∧
    handle_throw ⟨"2026-10-12", [("u1", ⟨0, 0⟩)]⟩ "2026-10-12" "u1" 5 "hi" none
        (call_bottle_api_parse "错误：x") =
      ⟨.plainResult ("❌ 投瓶失败：" ++ call_bottle_api_parse "错误：x"),
       ⟨"2026-10-12", [("u1", ⟨0, 0⟩)]⟩, 1, 0⟩ :=
  C7_sentinel_no_increment _ _ _ _ _ ⟨0, 0⟩ _ _ _ rfl (by decide) (by decide)
    (by decide) (by decide) (by decide)

/-- Claim C8: a throw command with empty text and no attached image, by a
user under the throw cap, gets the validation reply; no bottle-API call is
made, nothing is incremented and nothing is persisted. -/
theorem C8_throw_empty (s : QuotaStore) (today qq : String) (cT : Nat)
    (r : QuotaRecord) (api : String)
    (hdate : s.last_reset_date = today)
    (hu : lookupUser s.users qq = some r)
    (ht : r.throw < cT) :
    handle_throw s today qq cT "" none api =
      ⟨.plainResult
        "❌ 投放失败：需携带文字内容或图片！\n示例：\n投漂流瓶 今天天气真好～\n（发送时可附带图片）",
       s, 0, 0⟩ := by
  simp [handle_throw, get_user_count_found s today qq r hdate hu, not_le.mpr ht]

/-- Claim C8, witness: a user at 0 throws with no text and no image. -/
theorem C8_witness :
    handle_throw ⟨"2026-10-12", [("u1", ⟨0, 0⟩)]⟩ "2026-10-12" "u1" 5 "" none "ok" =
      ⟨.plainResult
        "❌ 投放失败：需携带文字内容或图片！\n示例：\n投漂流瓶 今天天气真好～\n（发送时可附带图片）",
       ⟨"2026-10-12", [("u1", ⟨0, 0⟩)]⟩, 0, 0⟩ :=
  C8_throw_empty _ _ _ _ ⟨0, 0⟩ _ rfl (by decide) (by decide)

/-- Claim C9: running the daily-reset check a second time with the same
current date returns the store produced by the first run unchanged and
does not persist. -/
theorem C9_reset_idempotent (s : QuotaStore) (d : String) :
    check_reset_data (check_reset_data s d).store d =
      ⟨(check_reset_data s d).store, false⟩ :=
  check_reset_eq_self _ _ (check_reset_date_eq s d)

/-- Claim C10: any string coming back from the bottle client that starts
with `"API错误"`, `"请求"` or `"调用"` — a genuine success payload that
merely starts with `"请求"` or `"调用"` included — sends both handlers
into the failure branch: a failure reply, no increment, no persist, store
unchanged. -/
theorem C10_failure_prefixes (s : QuotaStore) (today qq : String)
    (cP cT : Nat) (r : QuotaRecord) (content api : String) (img : Option String)
    (hdate : s.last_reset_date = today)
    (hu : lookupUser s.users qq = some r)
    (hp : r.pick < cP) (ht : r.throw < cT)
    (hc : (content == "" && img.isNone) = false)
    (hfail : isApiFailure api = true) :
    handle_pick s today qq cP api =
      ⟨.plainResult ("❌ 捡瓶失败：" ++ api), s, 1, 0⟩ ∧
    handle_throw s today qq cT content img api =
      ⟨.plainResult ("❌ 投瓶失败：" ++ api), s, 1, 0⟩ := by
  have hu' := get_user_count_found s today qq r hdate hu
  constructor <;>
    simp [handle_pick, handle_throw, hu', not_le.mpr hp, not_le.mpr ht, hc, hfail]

/-- Claim C10, witness: the string `"请求帮我转达一句话"` is a plausible
genuine bottle payload, yet both handlers treat it as a failure because it
starts with `"请求"`. -/
theorem C10_witness :
    isApiFailure "请求帮我转达一句话" = true ∧
    handle_pick ⟨"2026-10-12", [("u1", ⟨0, 0⟩)]⟩ "2026-10-12" "u1" 10 "请求帮我转达一句话" =
      ⟨.plainResult ("❌ 捡瓶失败：" ++ "请求帮我转达一句话"),
       ⟨"2026-10-12", [("u1", ⟨0, 0⟩)]⟩, 1, 0⟩ ∧
    handle_throw ⟨"2026-10-12", [("u1", ⟨0, 0⟩)]⟩ "2026-10-12" "u1" 5 "hi" none
        "请求帮我转达一句话" =
      ⟨.plainResult ("❌ 投瓶失败：" ++ "请求帮我转达一句话"),
       ⟨"2026-10-12", [("u1", ⟨0, 0⟩)]⟩, 1, 0⟩ := by
  have h := C10_failure_prefixes ⟨"2026-10-12", [("u1", ⟨0, 0⟩)]⟩ "2026-10-12" "u1" 10 5
    ⟨0, 0⟩ "hi" "请求帮我转达一句话" none rfl (by decide) (by decide) (by decide)
    (by decide) (by decide)
  exact ⟨by decide, h.1, h.2⟩

end DriftBottle
